import Mathlib

/-!
Verification of the asynchronous job subsystem of the genjishimada API:
the Outbox Publisher (`BaseService.publish_message`, src/di/base.py),
the Job Store (`InternalJobsService`, src/di/jobs.py), the Idempotency
Ledger (`InternalJobsController.claim_idempotency`, src/routes/jobs.py),
the Job Poller (`wait_for_job_completion`, src/utilities/jobs.py) and the
Continuation Runner (`wait_and_publish_newsfeed`, src/routes/maps/base.py).

Conventions of the embedding:
  * UUIDs are `Nat`; timestamps are `Nat`.
  * The `public.jobs` table is an association list from id to row; SQL
    statements become functions on that list.
  * An awaited call that can raise is modelled by an explicit outcome
    (a `Bool` success flag, or an `Except`); a Python function that can
    raise returns `Except`.
-/

namespace GenjiApi

/-- The `status` enum of the `jobs` table:
`enum{queued,processing,succeeded,failed}`. -/
inductive JobDbStatus where
  | queued
  | processing
  | succeeded
  | failed
deriving DecidableEq, Repr

/-- The text form of a `jobs.status` value, as `status::text` reads it. -/
def statusText : JobDbStatus → String
  | .queued => "queued"
  | .processing => "processing"
  | .succeeded => "succeeded"
  | .failed => "failed"

/-- One row of `public.jobs` (the `id` column is the key of the table
association list, so it is not repeated here). -/
structure JobRow where
  status : JobDbStatus
  action : String
  error_code : Option String
  error_msg : Option String
  started_at : Option Nat
  finished_at : Option Nat
deriving DecidableEq, Repr

/-- The `public.jobs` table: id to row. -/
abbrev JobsTable := List (Nat × JobRow)

/-- `SELECT ... FROM public.jobs WHERE id=$1` on the embedded table. -/
def lookupJob (t : JobsTable) (i : Nat) : Option JobRow :=
  (t.find? (fun p => p.1 == i)).map Prod.snd

/-- Modelled from the spec: the `jobs` table schema is not under the API
source (only its SQL callers are); per the spec the row an
`INSERT INTO public.jobs (id, action)` creates defaults `status` to
`queued` and leaves the error, `started_at` and `finished_at` columns
NULL. -/
def freshJobRow (action : String) : JobRow :=
  { status := .queued
    action := action
    error_code := none
    error_msg := none
    started_at := none
    finished_at := none }

/-- The effect of `INSERT INTO public.jobs (id, action) VALUES ($1, $2);`
in `BaseService.publish_message`. -/
def insertJobRow (t : JobsTable) (i : Nat) (action : String) : JobsTable :=
  (i, freshJobRow action) :: t

/-- The `JobStatus` response model (genjipk_sdk): `id`, `status`, and
optional `error_code` / `error_msg` (defaulting to none). -/
structure JobStatus where
  id : Nat
  status : String
  error_code : Option String := none
  error_msg : Option String := none
deriving DecidableEq, Repr

/-- Request headers: an association list of header name to value. -/
abbrev ReqHeaders := List (String × String)

/-- `headers.get(name)`. -/
def headersGet (h : ReqHeaders) (k : String) : Option String :=
  (h.find? (fun p => p.1 == k)).map Prod.snd

/-- An `aio_pika.Message` as `publish_message` builds it: body,
`correlation_id=str(job_id)`, `delivery_mode=PERSISTENT`, and the full
request headers dict. -/
structure MqMessage where
  body : String
  correlation_id : String
  delivery_mode_persistent : Bool
  headers : ReqHeaders
deriving DecidableEq, Repr

/-- The exception path of `publish_message` its `try/except` does not
cover: the awaited `mq_channel_pool.acquire()` (src/di/base.py line 58)
sits outside the `try`, so a broker/connectivity failure while
acquiring a channel propagates to the caller uncaught. -/
inductive PublishRaised where
  | channelAcquire
deriving DecidableEq, Repr

/-- What `publish_message` produces: either the returned `JobStatus` or
a propagated exception (`outcome`), plus the jobs table after the call
and the list of (message, routing key) pairs actually handed to
`channel.default_exchange.publish`. -/
structure PublishResult where
  outcome : Except PublishRaised JobStatus
  jobs : JobsTable
  published : List (MqMessage × String)
deriving Repr

/-- `BaseService.publish_message` (src/di/base.py lines 32-81).

Inputs beyond the Python arguments make the effects explicit:
`message_body` is the `msgspec.json.encode(data)` result; `pytestId` and
`jobId` are the two `uuid4()` draws (only one of which happens on any
run); `acquireOk` is whether the awaited
`async with self._state.mq_channel_pool.acquire()` succeeds — that
await precedes the `try`, so its failure is NOT caught and the
exception propagates to the caller (`outcome := .error`), with nothing
inserted and nothing published; `insertOk` is whether the awaited
`INSERT` succeeds and `brokerOk` whether the awaited
`exchange.publish` succeeds — those two awaits sit inside the `try`,
whose `except Exception` turns either failure into the returned
`JobStatus(job_id, "failed", "", "Failed to send message.")` without
re-raising and without rolling back the insert. -/
def publish_message (routing_key : String) (message_body : String)
    (headers : ReqHeaders) (pytestId jobId : Nat)
    (acquireOk insertOk brokerOk : Bool) (jobs : JobsTable) : PublishResult :=
  if headersGet headers "X-PYTEST-ENABLED" = some "1" then
    { outcome := .ok { id := pytestId, status := "succeeded" }
      jobs := jobs
      published := [] }
  else if acquireOk = false then
    { outcome := .error .channelAcquire
      jobs := jobs
      published := [] }
  else if insertOk = false then
    { outcome :=
        .ok { id := jobId, status := "failed", error_code := some ""
              error_msg := some "Failed to send message." }
      jobs := jobs
      published := [] }
  else
    let jobs1 := insertJobRow jobs jobId routing_key
    let message : MqMessage :=
      { body := message_body
        correlation_id := toString jobId
        delivery_mode_persistent := true
        headers := headers }
    if brokerOk = false then
      { outcome :=
          .ok { id := jobId, status := "failed", error_code := some ""
                error_msg := some "Failed to send message." }
        jobs := jobs1
        published := [] }
    else
      { outcome := .ok { id := jobId, status := "queued" }
        jobs := jobs1
        published := [(message, routing_key)] }

/-- The `public.processed_messages` table: the set of claimed idempotency
keys, as a list of `idempotency_key` values. -/
abbrev ProcessedMessages := List String

/-- The command tag and new table of
`INSERT INTO public.processed_messages (idempotency_key) VALUES ($1)
ON CONFLICT DO NOTHING`: the insert is skipped exactly when the uniquely
constrained key is already present, and the tag reports how many rows
the one statement affected. -/
def insertIfAbsentTag (db : ProcessedMessages) (key : String) :
    String × ProcessedMessages :=
  if db.contains key then ("INSERT 0 0", db) else ("INSERT 0 1", key :: db)

/-- Python's `str.endswith`: the second string is a suffix of the
first's character sequence. -/
def pyEndsWith (s post : String) : Bool :=
  post.data.isSuffixOf s.data

/-- `InternalJobsController.claim_idempotency` (src/routes/jobs.py lines
27-38): run the single insert-if-absent statement and derive `claimed`
from `tag.endswith("INSERT 0 1")`, i.e. from whether that insert
affected a row. -/
def claim_idempotency (db : ProcessedMessages) (key : String) :
    Bool × ProcessedMessages :=
  let r := insertIfAbsentTag db key
  (pyEndsWith r.1 "INSERT 0 1", r.2)

/-- The `JobUpdate` request model (genjipk_sdk): a transition status
string plus optional error fields. -/
structure JobUpdate where
  status : String
  error_code : Option String := none
  error_msg : Option String := none
deriving DecidableEq, Repr

/-- The exception `InternalJobsService.update_job` can raise: the
`sets[data.status]` dictionary lookup raises `KeyError` for a status
with no entry, before any SQL runs. -/
inductive UpdateJobError where
  | keyError (status : String)
deriving DecidableEq, Repr

/-- The `sets` dictionary of `InternalJobsService.update_job`
(src/di/jobs.py lines 26-33), as the row change each handled status
maps to (at transition time `now`); `none` for a status the dictionary
has no entry for.
  * processing: `status='processing', started_at=COALESCE(started_at,$2)`
  * succeeded: `status='succeeded', finished_at=$2, error_code=NULL,
    error_msg=NULL`
  * failed: `status='failed', finished_at=$2, error_code=$3,
    error_msg=$4` -/
def transitionSet (u : JobUpdate) (now : Nat) : Option (JobRow → JobRow) :=
  if u.status = "processing" then
    some fun r =>
      { r with status := .processing, started_at := some (r.started_at.getD now) }
  else if u.status = "succeeded" then
    some fun r =>
      { r with status := .succeeded, finished_at := some now
               error_code := none, error_msg := none }
  else if u.status = "failed" then
    some fun r =>
      { r with status := .failed, finished_at := some now
               error_code := u.error_code, error_msg := u.error_msg }
  else none

/-- `UPDATE public.jobs SET ... WHERE id=$1`: apply the row change to
every row whose id matches (zero rows affected when none does — the
statement succeeds either way and creates nothing). -/
def sqlUpdateWhereId (t : JobsTable) (i : Nat) (f : JobRow → JobRow) :
    JobsTable :=
  t.map fun p => if p.1 == i then (p.1, f p.2) else p

/-- `InternalJobsService.update_job` (src/di/jobs.py lines 24-35):
look `data.status` up in the `sets` dictionary (raising `KeyError` when
absent), then run the unconditional `UPDATE ... WHERE id=$1`. -/
def update_job (t : JobsTable) (i : Nat) (u : JobUpdate) (now : Nat) :
    Except UpdateJobError JobsTable :=
  match transitionSet u now with
  | none => .error (.keyError u.status)
  | some f => .ok (sqlUpdateWhereId t i f)

/-- `InternalJobsService.get_job` (src/di/jobs.py lines 15-22): fetch
the row, raise `HTTPException(404, "Job not found.")` when there is
none, else return its `JobStatus`. -/
def get_job (t : JobsTable) (i : Nat) : Except String JobStatus :=
  match lookupJob t i with
  | none => .error "Job not found."
  | some r =>
    .ok { id := i, status := statusText r.status
          error_code := r.error_code, error_msg := r.error_msg }

/-- The `JobStatusResponse` the poller's `fetch_status` yields
(genjipk_sdk.internal): same fields as `JobStatus`. -/
structure JobStatusResponse where
  id : Nat
  status : String
  error_code : Option String := none
  error_msg : Option String := none
deriving DecidableEq, Repr

/-- The two exceptions `wait_for_job_completion` raises:
`TimeoutError(f"Timed out waiting for job {job_id}")` and
`RuntimeError(f"Job {job.id} ended with status=..., code=..., msg=...")`
— distinct exception classes, so a caller can always tell them apart. -/
inductive PollError where
  | timedOut (job_id : Nat)
  | jobFailed (id : Nat) (status : String)
      (error_code error_msg : Option String)
deriving DecidableEq, Repr

/-- `wait_for_job_completion` (src/utilities/jobs.py lines 40-54) over an
explicit trace of its loop iterations: each element is the
`fetch_status(job_id)` result of one iteration paired with the elapsed
time `loop.time() - start_time` at that iteration's timeout check.
Per iteration, in source order: if the job is present and its status is
in the set `{"succeeded", "failed", "timeout"}`, return it when
succeeded and raise the job-failed error otherwise; then raise the
timeout error when `elapsed >= timeout`; otherwise sleep (with jitter,
irrelevant to the outcome) and continue. `none` means the trace ended
with the loop still polling. -/
def wait_for_job_completion (job_id : Nat) (timeout : Nat) :
    List (Option JobStatusResponse × Nat) →
      Option (Except PollError JobStatusResponse)
  | [] => none
  | (job, elapsed) :: rest =>
    let proceed : Option (Except PollError JobStatusResponse) :=
      if timeout ≤ elapsed then some (.error (.timedOut job_id))
      else wait_for_job_completion job_id timeout rest
    match job with
    | some j =>
      if ["succeeded", "failed", "timeout"].contains j.status then
        if j.status = "succeeded" then some (.ok j)
        else some (.error (.jobFailed j.id j.status j.error_code j.error_msg))
      else proceed
    | none => proceed

/-- Modelled from the spec: `InternalJobsService.get_job_using_pool`, the
`fetch_status` the Continuation Runner passes to the poller, is called in
src/routes/maps/base.py but is not under the API source. Per the spec it
reads the job's status like `get_job` but over a connection obtained
from a pool (never the original request-scoped connection), returning
`none` rather than raising when the row is absent (the poller's
`fetch_status` contract). -/
def get_job_using_pool (t : JobsTable) (i : Nat) : Option JobStatusResponse :=
  match lookupJob t i with
  | none => none
  | some r =>
    some { id := i, status := statusText r.status
           error_code := r.error_code, error_msg := r.error_msg }

/-- A `NewsfeedEvent` payload as the Continuation Runner sees it: either a
`NewsfeedLinkedMap` (official code, unofficial code, optional
`playtest_id`) or some other payload class (which fails the
`isinstance` assert). -/
inductive NewsfeedPayload where
  | linkedMap (official_code unofficial_code : String)
      (playtest_id : Option Nat)
  | otherPayload (tag : String)
deriving DecidableEq, Repr

/-- A `NewsfeedEvent` (genjipk_sdk): id, event type and payload
(timestamp omitted — the runner never reads or writes it). -/
structure NewsfeedEvent where
  id : Option Nat
  event_type : String
  payload : NewsfeedPayload
deriving DecidableEq, Repr

/-- The playtest data of a fetched map: the runner reads
`map_data.playtest.thread_id`. -/
structure PlaytestData where
  thread_id : Nat
deriving DecidableEq, Repr

/-- The map the runner re-fetches: `map_data.playtest` may be absent
(`assert map_data.playtest` then fails). -/
structure MapData where
  playtest : Option PlaytestData
deriving DecidableEq, Repr

/-- Outcomes of the awaited calls in `wait_and_publish_newsfeed`, each
standing for one suspension point of its chain; `.error` is that call
raising an exception.
  * `pollResult`: `wait_for_job_completion(job_id=status.id,
    fetch_status=jobs.get_job_using_pool, timeout=90.0)` — the value the
    awaited poll delivers (see `wait_for_job_completion` and
    `get_job_using_pool`; any exception other than its two typed errors
    is also swallowed by the runner, so `PollError` loses nothing).
  * `fetchMapsResult`: `svc.fetch_maps(single=True, ..., use_pool=True)`.
  * `publishResult`: `newsfeed.create_and_publish(event, headers,
    use_pool=True)`. -/
structure ContinuationEnv where
  pollResult : Except PollError JobStatusResponse
  fetchMapsResult : Except String MapData
  publishResult : Except String Unit
deriving Repr

/-- What a run of the Continuation Runner leaves behind: the newsfeed
events actually republished, whether the catch-all `except Exception`
logged a swallowed error (`log.exception(...)`), and whether the
non-success branch logged its skip warning. The function's return type
itself records that no exception escapes. -/
structure ContinuationOutcome where
  publishedEvents : List NewsfeedEvent
  loggedException : Bool
  skippedWarning : Bool
deriving DecidableEq, Repr

/-- The outcome when a step of the chain raised: nothing published, the
error logged and swallowed by the trailing `except Exception`. -/
def swallowed : ContinuationOutcome :=
  { publishedEvents := [], loggedException := true, skippedWarning := false }

/-- `wait_and_publish_newsfeed` (src/routes/maps/base.py lines
1004-1048): await the poll; on a succeeded final status, assert the
payload is a `NewsfeedLinkedMap`, re-fetch the map, assert it has
playtest data, set `event.payload.playtest_id` to its thread id and
republish the event; on a non-succeeded final status, log a warning and
skip; any exception anywhere in the `try` body (including the failed
asserts) is caught by `except Exception` and only logged. -/
def wait_and_publish_newsfeed (env : ContinuationEnv)
    (event : NewsfeedEvent) : ContinuationOutcome :=
  match env.pollResult with
  | .error _ => swallowed
  | .ok final_status =>
    if final_status.status = "succeeded" then
      match event.payload with
      | .otherPayload _ => swallowed
      | .linkedMap official unofficial _ =>
        match env.fetchMapsResult with
        | .error _ => swallowed
        | .ok map_data =>
          match map_data.playtest with
          | none => swallowed
          | some pt =>
            let enriched : NewsfeedEvent :=
              { event with
                  payload := .linkedMap official unofficial (some pt.thread_id) }
            match env.publishResult with
            | .error _ => swallowed
            | .ok _ =>
              { publishedEvents := [enriched]
                loggedException := false
                skippedWarning := false }
    else
      { publishedEvents := [], loggedException := false, skippedWarning := true }

/-! ## Helper lemmas -/

theorem lookupJob_insertJobRow (t : JobsTable) (i : Nat) (a : String) :
    lookupJob (insertJobRow t i a) i = some (freshJobRow a) := by
  simp [lookupJob, insertJobRow]

theorem lookupJob_sqlUpdateWhereId_self (t : JobsTable) (i : Nat)
    (f : JobRow → JobRow) :
    lookupJob (sqlUpdateWhereId t i f) i = (lookupJob t i).map f := by
  induction t with
  | nil => rfl
  | cons p t ih =>
    rcases p with ⟨a, r⟩
    by_cases h : a = i
    · subst h
      simp [lookupJob, sqlUpdateWhereId]
    · have hb : (a == i) = false := beq_eq_false_iff_ne.mpr h
      simp only [lookupJob, sqlUpdateWhereId, List.map_cons, List.find?] at ih ⊢
      simp only [hb, if_false]
      simpa [lookupJob, sqlUpdateWhereId, List.find?, hb] using ih

theorem sqlUpdateWhereId_of_none (t : JobsTable) (i : Nat)
    (f : JobRow → JobRow) (h : lookupJob t i = none) :
    sqlUpdateWhereId t i f = t := by
  induction t with
  | nil => rfl
  | cons p t ih =>
    rcases p with ⟨a, r⟩
    by_cases hb : (a == i) = true
    · exfalso
      simp [lookupJob, List.find?, hb] at h
    · have hb2 : (a == i) = false := by
        cases hab : (a == i) with
        | true => exact absurd hab hb
        | false => rfl
      simp only [lookupJob, List.find?, hb2] at h
      simp only [sqlUpdateWhereId, List.map_cons, hb2, if_false]
      have := ih (by simpa [lookupJob] using h)
      simpa [sqlUpdateWhereId] using this

/-! ## Claims about the Outbox Publisher -/

/-- C1 counterexample: with test mode off and the broker channel
acquisition failing, `publish_message` returns neither of the claim's
two JobStatus outcomes — the acquisition error propagates to the caller
(it sits outside the `try/except`), with no row inserted and nothing
published. -/
theorem publish_message_acquire_counterexample :
    (publish_message "api.map.create" "x" [] 0 1 false true true
        []).outcome = .error .channelAcquire ∧
      (publish_message "api.map.create" "x" [] 0 1 false true true
        []).jobs = [] ∧
      (publish_message "api.map.create" "x" [] 0 1 false true true
        []).published = [] :=
  ⟨rfl, rfl, rfl⟩

/-- C1 (amended): with test mode off, a failure of the awaited channel
acquisition (outside the `try/except`) propagates to the caller as an
exception, with nothing inserted and nothing published; on every other
path `publish_message` returns — never throws — either a queued
JobStatus together with a persisted job row at the new id whose status
is queued and whose action is the routing key, or a failed JobStatus
with error message "Failed to send message.", and on the
broker-publish failure path (insert succeeded, publish failed) the
already-inserted row is kept, still queued — no rollback. -/
theorem publish_message_outcomes (rk body : String) (hdrs : ReqHeaders)
    (pid jid : Nat) (acquireOk insertOk brokerOk : Bool) (jobs : JobsTable)
    (hTest : headersGet hdrs "X-PYTEST-ENABLED" ≠ some "1") :
    let r := publish_message rk body hdrs pid jid acquireOk insertOk
      brokerOk jobs
    (acquireOk = false ∧ r.outcome = .error .channelAcquire ∧
        r.jobs = jobs ∧ r.published = []) ∨
      (∃ js, r.outcome = .ok js ∧
        ((js.status = "queued" ∧
            lookupJob r.jobs jid = some (freshJobRow rk)) ∨
          (js.status = "failed" ∧
            js.error_msg = some "Failed to send message." ∧
            (insertOk = true →
              lookupJob r.jobs jid = some (freshJobRow rk))))) := by
  intro r
  show _ ∨ _
  unfold r
  rw [publish_message, if_neg hTest]
  cases acquireOk with
  | false => exact Or.inl ⟨rfl, rfl, rfl, rfl⟩
  | true =>
    cases insertOk with
    | false =>
      exact Or.inr ⟨_, rfl, Or.inr ⟨rfl, rfl, by intro h; cases h⟩⟩
    | true =>
      cases brokerOk with
      | false =>
        refine Or.inr ⟨_, rfl, Or.inr ⟨rfl, rfl, fun _ => ?_⟩⟩
        simpa using lookupJob_insertJobRow jobs jid rk
      | true =>
        refine Or.inr ⟨_, rfl, Or.inl ⟨rfl, ?_⟩⟩
        simpa using lookupJob_insertJobRow jobs jid rk

theorem publish_message_outcomes_witness :
    (let r := publish_message "api.map.create" "x" [] 0 1 true true false []
     (true = false ∧ r.outcome = .error .channelAcquire ∧
        r.jobs = [] ∧ r.published = []) ∨
      (∃ js, r.outcome = .ok js ∧
        ((js.status = "queued" ∧
            lookupJob r.jobs 1 = some (freshJobRow "api.map.create")) ∨
          (js.status = "failed" ∧
            js.error_msg = some "Failed to send message." ∧
            (true = true →
              lookupJob r.jobs 1 =
                some (freshJobRow "api.map.create")))))) :=
  publish_message_outcomes "api.map.create" "x" [] 0 1 true true false []
    (by decide)

/-- C6: every envelope a `publish_message` call hands to the broker is
published on the given routing key and carries correlation id
`str(job id)`, persistent delivery mode, and the caller's headers
verbatim — in particular any supplied "X-Idempotency-Key" header value
appears unchanged under that header in the envelope. -/
theorem publish_message_envelope (rk body : String) (hdrs : ReqHeaders)
    (pid jid : Nat) (acquireOk insertOk brokerOk : Bool) (jobs : JobsTable)
    (m : MqMessage) (rk2 : String)
    (hmem : (m, rk2) ∈
      (publish_message rk body hdrs pid jid acquireOk insertOk brokerOk
        jobs).published) :
    rk2 = rk ∧ m.correlation_id = toString jid ∧
      m.delivery_mode_persistent = true ∧ m.headers = hdrs ∧
      (∀ k, headersGet hdrs "X-Idempotency-Key" = some k →
        headersGet m.headers "X-Idempotency-Key" = some k) := by
  rw [publish_message] at hmem
  by_cases ht : headersGet hdrs "X-PYTEST-ENABLED" = some "1"
  · rw [if_pos ht] at hmem
    simp at hmem
  · rw [if_neg ht] at hmem
    cases acquireOk with
    | false => simp at hmem
    | true =>
      cases insertOk with
      | false => simp at hmem
      | true =>
        cases brokerOk with
        | false => simp at hmem
        | true =>
          simp at hmem
          obtain ⟨hm, hr⟩ := hmem
          subst hm
          exact ⟨hr, rfl, rfl, rfl, fun k hk => hk⟩

theorem publish_message_envelope_witness :
    ("api.map.create" : String) = "api.map.create" ∧
      (MqMessage.mk "x" (toString 1) true
        [("X-Idempotency-Key", "abc")]).correlation_id = toString 1 ∧
      (MqMessage.mk "x" (toString 1) true
        [("X-Idempotency-Key", "abc")]).delivery_mode_persistent = true ∧
      (MqMessage.mk "x" (toString 1) true
        [("X-Idempotency-Key", "abc")]).headers =
          [("X-Idempotency-Key", "abc")] ∧
      (∀ k,
        headersGet [("X-Idempotency-Key", "abc")] "X-Idempotency-Key" =
            some k →
          headersGet (MqMessage.mk "x" (toString 1) true
            [("X-Idempotency-Key", "abc")]).headers "X-Idempotency-Key" =
              some k) :=
  publish_message_envelope "api.map.create" "x"
    [("X-Idempotency-Key", "abc")] 0 1 true true true []
    (MqMessage.mk "x" (toString 1) true [("X-Idempotency-Key", "abc")])
    "api.map.create" (by decide)

/-- C7 counterexample: a request whose headers carry "X-Test-Mode": "1"
(the envelope contract's test-mode flag) is not short-circuited by
`publish_message`: the call inserts a job row (a database call),
publishes to the broker (a network call) and returns status "queued",
not a synthetic succeeded JobStatus. -/
theorem publish_message_xtestmode_counterexample :
    (publish_message "api.map.create" "x" [("X-Test-Mode", "1")]
        0 1 true true true []).outcome =
          .ok { id := 1, status := "queued" } ∧
      (publish_message "api.map.create" "x" [("X-Test-Mode", "1")]
        0 1 true true true []).jobs ≠ [] ∧
      (publish_message "api.map.create" "x" [("X-Test-Mode", "1")]
        0 1 true true true []).published ≠ [] := by
  refine ⟨rfl, ?_, ?_⟩ <;> decide

/-- C7 (amended): the test-mode flag `publish_message` recognizes is the
header "X-PYTEST-ENABLED" with value "1"; whenever it is set the call
touches neither the database nor the broker (the jobs table is returned
unchanged and nothing is published) and returns a synthetic JobStatus
with a freshly generated UUID and status succeeded. -/
theorem publish_message_pytest_mode (rk body : String) (hdrs : ReqHeaders)
    (pid jid : Nat) (acquireOk insertOk brokerOk : Bool) (jobs : JobsTable)
    (h : headersGet hdrs "X-PYTEST-ENABLED" = some "1") :
    publish_message rk body hdrs pid jid acquireOk insertOk brokerOk jobs =
      { outcome := .ok { id := pid, status := "succeeded" }
        jobs := jobs
        published := [] } := by
  rw [publish_message, if_pos h]

theorem publish_message_pytest_mode_witness :
    publish_message "api.map.create" "x" [("X-PYTEST-ENABLED", "1")]
        7 1 false true true [] =
      { outcome := .ok { id := 7, status := "succeeded" }
        jobs := []
        published := [] } :=
  publish_message_pytest_mode "api.map.create" "x"
    [("X-PYTEST-ENABLED", "1")] 7 1 false true true [] (by decide)

/-! ## Claims about the Idempotency Ledger -/

theorem pyEndsWith_tag1 : pyEndsWith "INSERT 0 1" "INSERT 0 1" = true := by
  decide

theorem pyEndsWith_tag0 : pyEndsWith "INSERT 0 0" "INSERT 0 1" = false := by
  decide

/-- C2: the first claim of a key returns claimed=true; a claim of an
already-present key returns claimed=false, and presence is preserved by
every later claim (so all subsequent calls on that key return false);
two distinct fresh keys are claimed true independently; and the boolean
is exactly "the single insert-if-absent affected a row" (the table grew
by one row), not a separate existence check. -/
theorem claim_idempotency_spec (db : ProcessedMessages) (k k2 : String) :
    (k ∉ db → (claim_idempotency db k).1 = true) ∧
      (k ∈ db → (claim_idempotency db k).1 = false) ∧
      (k ∈ db → k ∈ (claim_idempotency db k2).2) ∧
      (k ≠ k2 → k ∉ db → k2 ∉ db →
        (claim_idempotency db k).1 = true ∧
          (claim_idempotency (claim_idempotency db k).2 k2).1 = true) ∧
      ((claim_idempotency db k).1 = true ↔
        (claim_idempotency db k).2.length = db.length + 1) := by
  refine ⟨?_, ?_, ?_, ?_, ?_⟩
  · intro h
    simp [claim_idempotency, insertIfAbsentTag, h, pyEndsWith_tag1]
  · intro h
    simp [claim_idempotency, insertIfAbsentTag, h, pyEndsWith_tag0]
  · intro h
    by_cases h2 : k2 ∈ db
    · simp [claim_idempotency, insertIfAbsentTag, h2, h]
    · simp [claim_idempotency, insertIfAbsentTag, h2, h]
  · intro hne h1 h2
    constructor
    · simp [claim_idempotency, insertIfAbsentTag, h1, pyEndsWith_tag1]
    · have hc : (claim_idempotency db k).2 = k :: db := by
        simp [claim_idempotency, insertIfAbsentTag, h1]
      rw [hc]
      have hk2 : k2 ∉ k :: db := by
        intro hmem
        rcases List.mem_cons.mp hmem with hkk | hdb
        · exact hne hkk.symm
        · exact h2 hdb
      simp [claim_idempotency, insertIfAbsentTag, hk2, pyEndsWith_tag1]
  · by_cases h : k ∈ db
    · simp [claim_idempotency, insertIfAbsentTag, h, pyEndsWith_tag0]
    · simp [claim_idempotency, insertIfAbsentTag, h, pyEndsWith_tag1]

/-! ## Claims about the Job Store -/

/-- C3 counterexample: a job already in the terminal state succeeded is
moved back to processing by `update_job` — the further transition is
executed, neither a no-op nor rejected, and the status moves backward. -/
theorem update_job_terminal_counterexample :
    update_job
        [(1, { status := .succeeded, action := "api.map.create",
               error_code := none, error_msg := none,
               started_at := some 3, finished_at := some 4 })] 1
        { status := "processing" } 9 =
      .ok [(1, { status := .processing, action := "api.map.create",
                 error_code := none, error_msg := none,
                 started_at := some 3, finished_at := some 4 })] := by
  rfl

/-- C3 (amended): `update_job` applies each transition unconditionally
to the matching row — for a job in a terminal state the processing
transition is still executed, so it is neither a no-op nor rejected and
the status moves backward; monotonicity is not enforced by the store. -/
theorem update_job_terminal_not_protected (t : JobsTable) (i : Nat)
    (now : Nat) (r : JobRow) (hr : lookupJob t i = some r)
    (_hterm : r.status = .succeeded ∨ r.status = .failed) :
    ∃ t2, update_job t i { status := "processing" } now = .ok t2 ∧
      lookupJob t2 i =
        some { r with status := .processing
                      started_at := some (r.started_at.getD now) } := by
  refine ⟨_, rfl, ?_⟩
  rw [lookupJob_sqlUpdateWhereId_self, hr]
  rfl

theorem update_job_terminal_not_protected_witness :
    ∃ t2,
      update_job [(1, JobRow.mk .succeeded "a" none none (some 3) (some 4))]
          1 { status := "processing" } 9 = .ok t2 ∧
        lookupJob t2 1 =
          some { JobRow.mk .succeeded "a" none none (some 3) (some 4) with
                   status := .processing
                   started_at :=
                     some ((JobRow.mk .succeeded "a" none none (some 3)
                       (some 4)).started_at.getD 9) } :=
  update_job_terminal_not_protected
    [(1, JobRow.mk .succeeded "a" none none (some 3) (some 4))] 1 9
    (JobRow.mk .succeeded "a" none none (some 3) (some 4)) (by decide)
    (Or.inl rfl)

/-- C4 counterexample: updating an id with no job row does not fail — on
the empty table, `update_job` returns successfully, silently doing
nothing and creating no row (the claimed explicit failure never
happens). -/
theorem update_job_missing_counterexample :
    update_job ([] : JobsTable) 1 { status := "succeeded" } 5 =
      .ok ([] : JobsTable) := by
  rfl

/-- C4 (amended): updating a nonexistent id never creates a row, but it
does not fail explicitly either: for each of the three handled
transition statuses the UPDATE matches zero rows and `update_job`
returns successfully with the table unchanged. -/
theorem update_job_missing_id_noop (t : JobsTable) (i : Nat)
    (u : JobUpdate) (now : Nat) (f : JobRow → JobRow)
    (hmiss : lookupJob t i = none) (hf : transitionSet u now = some f) :
    update_job t i u now = .ok t := by
  rw [update_job, hf]
  exact congrArg Except.ok (sqlUpdateWhereId_of_none t i f hmiss)

theorem update_job_missing_id_noop_witness :
    update_job ([(2, JobRow.mk .queued "a" none none none none)] : JobsTable)
        1 { status := "failed", error_code := some "E", error_msg := some "m" }
        5 =
      .ok ([(2, JobRow.mk .queued "a" none none none none)] : JobsTable) :=
  update_job_missing_id_noop
    [(2, JobRow.mk .queued "a" none none none none)] 1
    { status := "failed", error_code := some "E", error_msg := some "m" } 5 _
    (by decide) rfl

/-- C9: the processing transition is idempotent with respect to
started_at — after a first `update_job(id, processing)` records a start
time, a second call never changes it: `started_at=COALESCE(started_at,
now)` keeps the value already set. -/
theorem update_job_processing_idempotent (t : JobsTable) (i : Nat)
    (r : JobRow) (n1 n2 : Nat) (hr : lookupJob t i = some r) :
    ∃ t1 r1 t2 r2,
      update_job t i { status := "processing" } n1 = .ok t1 ∧
        lookupJob t1 i = some r1 ∧
        update_job t1 i { status := "processing" } n2 = .ok t2 ∧
        lookupJob t2 i = some r2 ∧
        r1.started_at = some (r.started_at.getD n1) ∧
        r2.started_at = r1.started_at := by
  refine ⟨_,
    { r with status := .processing, started_at := some (r.started_at.getD n1) },
    _,
    { r with status := .processing, started_at := some (r.started_at.getD n1) },
    rfl, ?_, rfl, ?_, rfl, rfl⟩
  · rw [lookupJob_sqlUpdateWhereId_self, hr]
    rfl
  · rw [lookupJob_sqlUpdateWhereId_self, lookupJob_sqlUpdateWhereId_self, hr]
    rfl

theorem update_job_processing_idempotent_witness :
    ∃ t1 r1 t2 r2,
      update_job [(1, JobRow.mk .queued "a" none none none none)] 1
          { status := "processing" } 5 = .ok t1 ∧
        lookupJob t1 1 = some r1 ∧
        update_job t1 1 { status := "processing" } 8 = .ok t2 ∧
        lookupJob t2 1 = some r2 ∧
        r1.started_at =
          some ((JobRow.mk .queued "a" none none none none).started_at.getD 5) ∧
        r2.started_at = r1.started_at :=
  update_job_processing_idempotent
    [(1, JobRow.mk .queued "a" none none none none)] 1
    (JobRow.mk .queued "a" none none none none) 5 8 (by decide)

/-- C10: `update_job` handles only the statuses processing, succeeded
and failed — any other `JobUpdate.status` (for example "queued") makes
the `sets[data.status]` dictionary lookup raise a KeyError before any
SQL runs, rather than performing an update or returning a typed
error. -/
theorem update_job_unhandled_keyerror (t : JobsTable) (i : Nat)
    (u : JobUpdate) (now : Nat) (h1 : u.status ≠ "processing")
    (h2 : u.status ≠ "succeeded") (h3 : u.status ≠ "failed") :
    update_job t i u now = .error (.keyError u.status) := by
  rw [update_job, transitionSet, if_neg h1, if_neg h2, if_neg h3]

theorem update_job_unhandled_keyerror_witness :
    update_job ([] : JobsTable) 0 { status := "queued" } 0 =
      .error (.keyError "queued") :=
  update_job_unhandled_keyerror [] 0 { status := "queued" } 0
    (by decide) (by decide) (by decide)

/-! ## Claims about the Job Poller -/

theorem wait_step_none (job_id timeout elapsed : Nat)
    (rest : List (Option JobStatusResponse × Nat)) :
    wait_for_job_completion job_id timeout ((none, elapsed) :: rest) =
      if timeout ≤ elapsed then some (.error (.timedOut job_id))
      else wait_for_job_completion job_id timeout rest := by
  rw [wait_for_job_completion]

theorem wait_step_some (job_id timeout : Nat) (j : JobStatusResponse)
    (elapsed : Nat) (rest : List (Option JobStatusResponse × Nat))
    (h : j.status = "queued" ∨ j.status = "processing" ∨
      j.status = "succeeded" ∨ j.status = "failed") :
    wait_for_job_completion job_id timeout ((some j, elapsed) :: rest) =
      if j.status = "succeeded" then some (.ok j)
      else if j.status = "failed" then
        some (.error (.jobFailed j.id j.status j.error_code j.error_msg))
      else if timeout ≤ elapsed then some (.error (.timedOut job_id))
      else wait_for_job_completion job_id timeout rest := by
  rw [wait_for_job_completion]
  rcases h with h | h | h | h <;> simp [h]

theorem wait_classify (job_id timeout : Nat)
    (trace : List (Option JobStatusResponse × Nat))
    (henum : ∀ j elapsed, (some j, elapsed) ∈ trace →
      j.status = "queued" ∨ j.status = "processing" ∨
        j.status = "succeeded" ∨ j.status = "failed") :
    ∀ r, wait_for_job_completion job_id timeout trace = some r →
      (∃ j, r = .ok j ∧ j.status = "succeeded") ∨
        (∃ i ec em, r = .error (.jobFailed i "failed" ec em)) ∨
        r = .error (.timedOut job_id) := by
  induction trace with
  | nil =>
    intro r hr
    simp [wait_for_job_completion] at hr
  | cons hd tl ih =>
    rcases hd with ⟨job, elapsed⟩
    have ihr := ih fun j e hm => henum j e (List.mem_cons_of_mem _ hm)
    intro r hr
    cases job with
    | none =>
      rw [wait_step_none] at hr
      by_cases ht : timeout ≤ elapsed
      · rw [if_pos ht] at hr
        right; right
        exact (Option.some_inj.mp hr).symm
      · rw [if_neg ht] at hr
        exact ihr r hr
    | some j =>
      have hj := henum j elapsed (List.mem_cons_self _ _)
      rw [wait_step_some job_id timeout j elapsed tl hj] at hr
      by_cases hs : j.status = "succeeded"
      · rw [if_pos hs] at hr
        exact Or.inl ⟨j, (Option.some_inj.mp hr).symm, hs⟩
      · rw [if_neg hs] at hr
        by_cases hf : j.status = "failed"
        · rw [if_pos hf] at hr
          refine Or.inr (Or.inl ⟨j.id, j.error_code, j.error_msg, ?_⟩)
          rw [← (Option.some_inj.mp hr), hf]
        · rw [if_neg hf] at hr
          by_cases ht : timeout ≤ elapsed
          · rw [if_pos ht] at hr
            right; right
            exact (Option.some_inj.mp hr).symm
          · rw [if_neg ht] at hr
            exact ihr r hr

/-- C5: over any polling trace whose fetched statuses are drawn from the
stored status enum (queued, processing, succeeded, failed — timeout is
never a stored state), `wait_for_job_completion` returns the fetched job
exactly when its status is succeeded, raises the job-failed error
exactly when the fetched status is the terminal status failed, raises
the timeout error exactly when the deadline has passed at a
non-terminal iteration, and every raised error is one of these two
always-distinguishable kinds. -/
theorem wait_for_job_completion_spec (job_id timeout : Nat)
    (trace : List (Option JobStatusResponse × Nat))
    (henum : ∀ j elapsed, (some j, elapsed) ∈ trace →
      j.status = "queued" ∨ j.status = "processing" ∨
        j.status = "succeeded" ∨ j.status = "failed") :
    (∀ j, wait_for_job_completion job_id timeout trace = some (.ok j) →
        j.status = "succeeded") ∧
      (∀ i s ec em,
        wait_for_job_completion job_id timeout trace =
            some (.error (.jobFailed i s ec em)) →
          s = "failed") ∧
      (∀ e, wait_for_job_completion job_id timeout trace = some (.error e) →
        (∃ i ec em, e = .jobFailed i "failed" ec em) ∨
          e = .timedOut job_id) ∧
      (∀ j elapsed rest,
        (j.status = "queued" ∨ j.status = "processing" ∨
            j.status = "succeeded" ∨ j.status = "failed") →
          wait_for_job_completion job_id timeout ((some j, elapsed) :: rest) =
            if j.status = "succeeded" then some (.ok j)
            else if j.status = "failed" then
              some (.error (.jobFailed j.id j.status j.error_code j.error_msg))
            else if timeout ≤ elapsed then some (.error (.timedOut job_id))
            else wait_for_job_completion job_id timeout rest) := by
  refine ⟨?_, ?_, ?_, ?_⟩
  · intro j hj
    rcases wait_classify job_id timeout trace henum _ hj with
      ⟨j2, hj2, hs⟩ | ⟨i, ec, em, h⟩ | h
    · cases hj2
      exact hs
    · cases h
    · cases h
  · intro i s ec em h
    rcases wait_classify job_id timeout trace henum _ h with
      ⟨j2, hj2, _⟩ | ⟨i2, ec2, em2, h2⟩ | h2
    · cases hj2
    · cases h2
      rfl
    · cases h2
  · intro e he
    rcases wait_classify job_id timeout trace henum _ he with
      ⟨j2, hj2, _⟩ | ⟨i2, ec2, em2, h2⟩ | h2
    · cases hj2
    · cases h2
      exact Or.inl ⟨i2, ec2, em2, rfl⟩
    · cases h2
      exact Or.inr rfl
  · intro j elapsed rest h
    exact wait_step_some job_id timeout j elapsed rest h

theorem wait_for_job_completion_spec_witness :
    (∀ j,
      wait_for_job_completion 5 10
          [(none, 0), (some (JobStatusResponse.mk 7 "succeeded" none none), 1)] =
            some (.ok j) →
        j.status = "succeeded") ∧
      (∀ i s ec em,
        wait_for_job_completion 5 10
            [(none, 0),
             (some (JobStatusResponse.mk 7 "succeeded" none none), 1)] =
              some (.error (.jobFailed i s ec em)) →
          s = "failed") ∧
      (∀ e,
        wait_for_job_completion 5 10
            [(none, 0),
             (some (JobStatusResponse.mk 7 "succeeded" none none), 1)] =
              some (.error e) →
          (∃ i ec em, e = .jobFailed i "failed" ec em) ∨ e = .timedOut 5) ∧
      (∀ j elapsed rest,
        (j.status = "queued" ∨ j.status = "processing" ∨
            j.status = "succeeded" ∨ j.status = "failed") →
          wait_for_job_completion 5 10 ((some j, elapsed) :: rest) =
            if j.status = "succeeded" then some (.ok j)
            else if j.status = "failed" then
              some (.error (.jobFailed j.id j.status j.error_code j.error_msg))
            else if 10 ≤ elapsed then some (.error (.timedOut 5))
            else wait_for_job_completion 5 10 rest) :=
  wait_for_job_completion_spec 5 10
    [(none, 0), (some (JobStatusResponse.mk 7 "succeeded" none none), 1)]
    (by
      intro j e hm
      simp only [List.mem_cons, List.mem_singleton, Prod.mk.injEq,
        Option.some.injEq, reduceCtorEq, false_and, false_or,
        List.not_mem_nil, or_false] at hm
      obtain ⟨hj, _⟩ := hm
      subst hj
      right; right; left
      rfl)

/-! ## Claims about the Continuation Runner -/

/-- C8: `wait_and_publish_newsfeed` always returns an outcome — an error
delivered by any awaited step of its chain yields the logged-and-
swallowed outcome, never a propagated exception (first conjunct; the
return type itself carries no error case); nothing is published without
a log entry except on the explicit skip-warning branch (second
conjunct, an iff); and when the awaited job ends succeeded and the rest
of the chain completes, the runner re-fetches the map data and
republishes exactly the follow-on event enriched with the fetched
playtest thread id (third conjunct). -/
theorem wait_and_publish_newsfeed_spec (env : ContinuationEnv)
    (event : NewsfeedEvent) :
    (∀ e, env.pollResult = .error e →
        wait_and_publish_newsfeed env event = swallowed) ∧
      (((wait_and_publish_newsfeed env event).publishedEvents = [] ∧
          (wait_and_publish_newsfeed env event).skippedWarning = false) ↔
        (wait_and_publish_newsfeed env event).loggedException = true) ∧
      (∀ fs official unofficial pid0 md pt,
        env.pollResult = .ok fs → fs.status = "succeeded" →
        event.payload = .linkedMap official unofficial pid0 →
        env.fetchMapsResult = .ok md → md.playtest = some pt →
        env.publishResult = .ok () →
        wait_and_publish_newsfeed env event =
          { publishedEvents :=
              [{ event with
                   payload :=
                     .linkedMap official unofficial (some pt.thread_id) }]
            loggedException := false
            skippedWarning := false }) := by
  obtain ⟨poll, fetch, pub⟩ := env
  refine ⟨?_, ?_, ?_⟩
  · intro e he
    cases he
    rfl
  · cases poll with
    | error e => simp [wait_and_publish_newsfeed, swallowed]
    | ok fs =>
      by_cases hs : fs.status = "succeeded"
      · cases hp : event.payload with
        | otherPayload tag =>
          simp [wait_and_publish_newsfeed, hs, hp, swallowed]
        | linkedMap official unofficial pid0 =>
          cases fetch with
          | error e => simp [wait_and_publish_newsfeed, hs, hp, swallowed]
          | ok md =>
            cases hpt : md.playtest with
            | none => simp [wait_and_publish_newsfeed, hs, hp, hpt, swallowed]
            | some pt =>
              cases pub with
              | error e =>
                simp [wait_and_publish_newsfeed, hs, hp, hpt, swallowed]
              | ok u =>
                simp [wait_and_publish_newsfeed, hs, hp, hpt, swallowed]
      · simp [wait_and_publish_newsfeed, hs, swallowed]
  · intro fs official unofficial pid0 md pt hpoll hs hp hfetch hpt hpub
    cases hpoll
    cases hfetch
    cases hpub
    simp [wait_and_publish_newsfeed, hs, hp, hpt]

end GenjiApi
